import Mathlib

/-!
Verification of the pod-webhook-tracker counter-update protocol.

The development shallowly embeds the first (authoritative) program of
`src/main.go`: the HTTP endpoint layer (`updateLabelRequest`, the
increment/decrement handlers) and the counter update engine
(`updateLabel` wrapped in `retry.RetryOnConflict` with
`retry.DefaultBackoff`, whose budget is 4 attempts).  The external
record store (the Kubernetes pod API) is embedded through the exact
interface the engine uses: list-by-name-and-selector capped at one
result, and conditional whole-record update that rejects on a
resource-version mismatch.  Go's `int` is embedded as `Int` with
explicit two's-complement wrap-around at 64 bits, `strconv.Atoi` /
`strconv.Itoa` as executable decimal string conversions, and the
`http.ResponseWriter` as a record of the first status code written plus
the accumulated body (net/http ignores a second `WriteHeader` call).
-/

namespace PodTracker

/-- Smallest value of a 64-bit signed integer (Go's `int` on 64-bit platforms). -/
def int64Min : Int := -(2 ^ 63)

/-- Largest value of a 64-bit signed integer. -/
def int64Max : Int := 2 ^ 63 - 1

/-- Two's-complement wrap-around of 64-bit signed arithmetic, as performed by
Go's `int` addition and subtraction. -/
def wrap64 (x : Int) : Int := (x + 2 ^ 63) % 2 ^ 64 - 2 ^ 63

/-- Decimal digit character, `digitChar d = '0' + d` for `d < 10`. -/
def digitChar (d : Nat) : Char := Char.ofNat (48 + d)

/-- Big-endian decimal digit list of a natural number, with explicit fuel so
that the definition is structurally recursive and kernel-reducible.  With
`fuel > n` the fuel never runs out. -/
def natStrAux : Nat → Nat → List Char
  | 0, _ => []
  | fuel + 1, n =>
    if n < 10 then [digitChar n]
    else natStrAux fuel (n / 10) ++ [digitChar (n % 10)]

/-- Big-endian decimal digit list of a natural number. -/
def natStr (n : Nat) : List Char := natStrAux (n + 1) n

/-- Model of Go's `strconv.Itoa`: decimal string of an integer, with a leading
minus sign for negative values. -/
def itoa (v : Int) : String :=
  if v < 0 then String.mk ('-' :: natStr v.natAbs) else String.mk (natStr v.toNat)

/-- Accumulating decimal parser over a digit list; fails on the first
non-digit character.  Mirrors the digit loop of Go's `strconv.ParseInt`. -/
def digitsVal : List Char → Nat → Option Nat
  | [], acc => some acc
  | c :: cs, acc =>
    if '0' ≤ c ∧ c ≤ '9' then digitsVal cs (acc * 10 + (c.toNat - 48)) else none

/-- Digit run of `atoi` after the sign has been stripped: at least one
decimal digit, and the value must fit in a signed 64-bit integer. -/
def atoiDigits (neg : Bool) (digits : List Char) : Option Int :=
  if digits.isEmpty then none
  else
    match digitsVal digits 0 with
    | none => none
    | some n =>
      let v : Int := if neg then -(n : Int) else (n : Int)
      if int64Min ≤ v ∧ v ≤ int64Max then some v else none

/-- Character-list form of `atoi`: an optional leading `+` or `-` sign, then
the digit run. -/
def atoiAux : List Char → Option Int
  | [] => none
  | c :: cs =>
    if c = '+' then atoiDigits false cs
    else if c = '-' then atoiDigits true cs
    else atoiDigits false (c :: cs)

/-- Model of Go's `strconv.Atoi` (= `strconv.ParseInt(s, 10, 0)` with 64-bit
`int`); `none` models a non-nil error (invalid syntax or out of range). -/
def atoi (s : String) : Option Int := atoiAux s.data

/-- Label maps are association lists of string key/value pairs, read and
written with Go map semantics. -/
abbrev Labels := List (String × String)

/-- Go map read `labels[k]`: first binding of the key, if any. -/
def lookupLabel : Labels → String → Option String
  | [], _ => none
  | (k', v) :: rest, k => if k' = k then some v else lookupLabel rest k

/-- Go map write `labels[k] = v`: replace the existing binding, else append. -/
def setLabel (ls : Labels) (k v : String) : Labels :=
  if ls.any (fun kv => kv.1 = k) then
    ls.map (fun kv => if kv.1 = k then (k, v) else kv)
  else ls ++ [(k, v)]

/-- Go map `delete(labels, k)`: drop every binding of the key (a no-op when
the key is absent, as for Go's `delete` on a nil or missing key). -/
def deleteLabel (ls : Labels) (k : String) : Labels :=
  ls.filter (fun kv => ¬ kv.1 = k)

/-- Equality-based label selector: a conjunction of required `key=value`
pairs; the empty selector (the `--label-selector` flag's default `""`)
matches every record.  This is the fragment of the Kubernetes selector
language the spec's authorization boundary needs. -/
def selectorMatches (sel : List (String × String)) (ls : Labels) : Bool :=
  sel.all (fun kv => lookupLabel ls kv.1 = some kv.2)

/-- A pod record as the engine sees it: namespace, name, label map, and the
store-assigned resource version used for conditional writes. -/
structure Pod where
  ns : String
  name : String
  labels : Labels
  resourceVersion : Nat
deriving DecidableEq, Repr

/-- The backing record store: the set of pod records. -/
structure Store where
  pods : List Pod
deriving DecidableEq, Repr

/-- Store lookup by namespace and name (the identity of a record). -/
def findPod (st : Store) (ns name : String) : Option Pod :=
  st.pods.find? (fun p => p.ns = ns ∧ p.name = name)

/-- Model of the pod List call of `updateLabel` (src/main.go lines 225-229):
field selector `metadata.name=podName`, the configured label selector, and
`Limit: 1`. -/
def listPods (st : Store) (ns name : String) (sel : List (String × String)) : List Pod :=
  (st.pods.filter (fun p => p.ns = ns ∧ p.name = name ∧ selectorMatches sel p.labels)).take 1

/-- Outcome of the store's conditional update. -/
inductive UpdateOutcome where
  | ok (st : Store)
  | conflict
  | notFound
deriving DecidableEq, Repr

/-- Model of the pod Update call (src/main.go line 261): the store rejects the
write with a conflict error when the submitted record's resource version no
longer matches the stored one (optimistic concurrency), returns a not-found
error when the record is gone, and otherwise replaces the record and assigns
it a fresh resource version. -/
def conditionalUpdate (st : Store) (newPod : Pod) : UpdateOutcome :=
  match findPod st newPod.ns newPod.name with
  | none => .notFound
  | some cur =>
    if cur.resourceVersion = newPod.resourceVersion then
      .ok ⟨st.pods.map (fun p =>
        if p.ns = newPod.ns ∧ p.name = newPod.name then
          { newPod with resourceVersion := cur.resourceVersion + 1 }
        else p)⟩
    else .conflict

/-- A concurrent writer touching a record: the store bumps its resource
version (labels unchanged), which is what makes a later conditional write by
a reader of the old version conflict. -/
def touchPod (st : Store) (ns name : String) : Store :=
  ⟨st.pods.map (fun p =>
    if p.ns = ns ∧ p.name = name then { p with resourceVersion := p.resourceVersion + 1 }
    else p)⟩

/-- Model of the `http.ResponseWriter`: the status code of the first
`WriteHeader` call (net/http ignores later ones as superfluous) and the
accumulated body. -/
structure Response where
  status : Option Nat
  body : String
deriving DecidableEq, Repr

/-- The fresh response writer handed to a handler. -/
def emptyResponse : Response := ⟨none, ""⟩

/-- Model of `ResponseWriter.WriteHeader`: only the first written status code
sticks. -/
def writeHeader (w : Response) (code : Nat) : Response :=
  match w.status with
  | some _ => w
  | none => { w with status := some code }

/-- Model of `ResponseWriter.Write` (and `fmt.Fprintf` to it): an implicit
`WriteHeader 200` if no status was written yet, then append to the body. -/
def writeBody (w : Response) (s : String) : Response :=
  { writeHeader w 200 with body := w.body ++ s }

/-- Model of `http.Error(w, msg, code)`: write the status code, then the
message followed by a newline. -/
def httpError (w : Response) (msg : String) (code : Nat) : Response :=
  writeBody (writeHeader w code) (msg ++ "\n")

/-- Server configuration (src/main.go lines 110-118 and `configureFlags`,
lines 126-134): immutable for the process lifetime.  The Go field
`namespace` is called `ns` here because `namespace` is a Lean keyword. -/
structure webhookServer where
  ns : String
  labelSelector : List (String × String)
  label : String
  removeOnZero : Bool
  allowNegative : Bool
deriving DecidableEq, Repr

/-- The flag defaults of `configureFlags` (src/main.go lines 126-134):
namespace `default`, empty label selector, label `active-jobs`,
`remove-on-zero` true, `allow-negative` false. -/
def defaultServer : webhookServer :=
  { ns := "default"
    labelSelector := []
    label := "active-jobs"
    removeOnZero := true
    allowNegative := false }

/-- Classification of a non-nil error returned by one `updateLabel` attempt. -/
inductive EngineErr where
  | listFailed (msg : String)
  | podNotFound (name ns : String)
  | invalidLabelValue (label value : String)
  | updateConflict
  | updateFailed
deriving DecidableEq, Repr

/-- Model of `apierrors.IsConflict` as used by `retry.RetryOnConflict`: only
the store's conditional-write version-mismatch rejection is a conflict. -/
def EngineErr.isConflict : EngineErr → Bool
  | .updateConflict => true
  | _ => false

/-- Environment of one `updateLabel` attempt: the faults the external store
may inject during this attempt.  `listErr` (with the transport error text)
makes the List call fail; `interfere` lets a concurrent writer update the
target record between this attempt's fetch and its conditional write (the
spec's forced conflict injection); `updateErr` makes the Update call fail
with a non-conflict transport error. -/
structure Attempt where
  listErr : Option String
  interfere : Bool
  updateErr : Bool
deriving DecidableEq, Repr

/-- An attempt during which the store behaves normally and no concurrent
writer interferes. -/
def cleanAttempt : Attempt := ⟨none, false, false⟩

/-- Reading the counter from a fetched record (src/main.go lines 241-249):
an absent label is the value `0`; a present label is parsed with
`strconv.Atoi`, `none` meaning the corrupt-value failure. -/
def currentLabelValue (label : String) (ls : Labels) : Option Int :=
  match lookupLabel ls label with
  | none => some 0
  | some s => atoi s

/-- Go's `%q` verb on the plain strings that occur here: the string wrapped
in double quotes. -/
def goQuote (s : String) : String := "\"" ++ s ++ "\""

/-- The mutate-in-memory step (src/main.go lines 252-259): if the new value
is `0` and the remove-on-zero policy is on, delete the counter label from the
record copy; otherwise set it to the decimal string of the new value. -/
def mutatedLabels (ws : webhookServer) (ls : Labels) (newValue : Int) : Labels :=
  if newValue = 0 ∧ ws.removeOnZero then deleteLabel ls ws.label
  else setLabel ls ws.label (itoa newValue)

/-- Tail of one `updateLabel` attempt after the counter has been read
(src/main.go lines 251-268): compute the new value, mutate the in-memory
record, submit the conditional write, and on success print the new value to
the response.  Conflict and non-conflict write failures both answer 500 with
`Failed to update pod label`, but return distinct error classes. -/
def updateLabelWrite (ws : webhookServer) (a : Attempt) (st : Store) (w : Response)
    (pod : Pod) (labelValue : Int) (callback : Int → Int) :
    Store × Response × Option EngineErr :=
  let newValue := callback labelValue
  let newLabels := mutatedLabels ws pod.labels newValue
  let st1 := if a.interfere then touchPod st pod.ns pod.name else st
  if a.updateErr then
    (st1, httpError w "Failed to update pod label" 500, some .updateFailed)
  else
    match conditionalUpdate st1 { pod with labels := newLabels } with
    | .ok st2 => (st2, writeBody w (itoa newValue), none)
    | .conflict => (st1, httpError w "Failed to update pod label" 500, some .updateConflict)
    | .notFound => (st1, httpError w "Failed to update pod label" 500, some .updateFailed)

/-- One attempt of `webhookServer.updateLabel` (src/main.go lines 221-269):
fetch the record (List restricted to the namespace, the name field selector
and the label selector, capped at one result), answer 404 `Pod not found`
when nothing matches, parse the counter label (absent means `0`, unparsable
answers 500 and fails), then compute, mutate and conditionally write.  The
result is the store after the attempt, the response writer after the
attempt, and the Go error returned to the caller (`none` = nil). -/
def updateLabel (ws : webhookServer) (a : Attempt) (st : Store) (w : Response)
    (podName : String) (callback : Int → Int) :
    Store × Response × Option EngineErr :=
  match a.listErr with
  | some msg =>
    (st, httpError w ("Failed to list pods: " ++ msg) 500, some (.listFailed msg))
  | none =>
    match listPods st ws.ns podName ws.labelSelector with
    | [] => (st, httpError w "Pod not found" 404, some (.podNotFound podName ws.ns))
    | pod :: _ =>
      match lookupLabel pod.labels ws.label with
      | none => updateLabelWrite ws a st w pod 0 callback
      | some valueStr =>
        match atoi valueStr with
        | none =>
          (st,
           httpError w ("Invalid " ++ goQuote ws.label ++ " label value: " ++ goQuote valueStr) 500,
           some (.invalidLabelValue ws.label valueStr))
        | some labelValue => updateLabelWrite ws a st w pod labelValue callback

/-- Attempt budget of `retry.DefaultBackoff` (`wait.Backoff.Steps = 4`): the
function passed to `retry.RetryOnConflict` runs at most 4 times. -/
def defaultBackoffSteps : Nat := 4

/-- Model of `retry.RetryOnConflict(retry.DefaultBackoff, ...)` around
`updateLabel` (src/main.go lines 216-218): run an attempt; stop on success or
on a non-conflict error; on a conflict error re-run the whole attempt against
the then-current store, until the step budget is spent, in which case the
last conflict error is returned.  `atts` supplies the per-attempt store
environment, defaulting to a clean store. -/
def retryOnConflict (ws : webhookServer) (podName : String) (callback : Int → Int) :
    Nat → List Attempt → Store → Response → Store × Response × Option EngineErr
  | 0, _, st, w => (st, w, some .updateConflict)
  | steps + 1, atts, st, w =>
    let r := updateLabel ws (atts.headD cleanAttempt) st w podName callback
    match r.2.2 with
    | none => r
    | some e =>
      if e.isConflict then
        if steps = 0 then r
        else retryOnConflict ws podName callback steps atts.tail r.1 r.2.1
      else r

/-- Model of `webhookServer.updateLabelRequest` (src/main.go lines 204-219):
reject non-POST methods with 405, a missing or empty `pod_name` query
parameter with 400, and otherwise run the retrying engine; the engine's
final error is discarded (`_ =` on line 216), so the handler's result is the
store and the response alone. -/
def updateLabelRequest (ws : webhookServer) (method podName : String)
    (atts : List Attempt) (st : Store) (callback : Int → Int) : Store × Response :=
  if ¬ method = "POST" then (st, httpError emptyResponse "Method not allowed" 405)
  else if podName = "" then
    (st, httpError emptyResponse "Missing pod_name query parameter" 400)
  else
    let r := retryOnConflict ws podName callback defaultBackoffSteps atts st emptyResponse
    (r.1, r.2.1)

/-- The increment delta function (src/main.go lines 184-187): `v + 1` with
Go's wrapping `int` addition, no floor and no ceiling check. -/
def incrementCallback (v : Int) : Int := wrap64 (v + 1)

/-- The decrement delta function (src/main.go lines 193-200): floored at `0`
when negative values are not allowed, else `v - 1` with Go's wrapping `int`
subtraction. -/
def decrementCallback (ws : webhookServer) (v : Int) : Int :=
  if ¬ ws.allowNegative ∧ v ≤ 0 then 0 else wrap64 (v - 1)

/-- The handler built by `buildIncrementHandler` (src/main.go lines 182-189). -/
def incrementHandler (ws : webhookServer) (method podName : String)
    (atts : List Attempt) (st : Store) : Store × Response :=
  updateLabelRequest ws method podName atts st incrementCallback

/-- The handler built by `buildDecrementHandler` (src/main.go lines 191-202). -/
def decrementHandler (ws : webhookServer) (method podName : String)
    (atts : List Attempt) (st : Store) : Store × Response :=
  updateLabelRequest ws method podName atts st (decrementCallback ws)

/-- The counter value a record currently stores, as the engine reads it:
`none` when the record is absent or its label corrupt. -/
def storeValue (label : String) (st : Store) (ns name : String) : Option Int :=
  match findPod st ns name with
  | none => none
  | some p => currentLabelValue label p.labels

/-! ### Arithmetic and string lemmas -/

/-- Output range of the wrap-around. -/
theorem wrap64_mem (x : Int) : int64Min ≤ wrap64 x ∧ wrap64 x ≤ int64Max := by
  unfold wrap64 int64Min int64Max
  omega

/-- Wrapping is the identity inside the 64-bit range. -/
theorem wrap64_eq_self {x : Int} (h1 : int64Min ≤ x) (h2 : x ≤ int64Max) : wrap64 x = x := by
  unfold wrap64 int64Min int64Max at *
  omega

/-- Wrapping absorbs an already-wrapped summand. -/
theorem wrap64_wrap64_add (x y : Int) : wrap64 (wrap64 x + y) = wrap64 (x + y) := by
  unfold wrap64
  omega

/-- The decimal digit characters have the expected code points. -/
theorem digitChar_toNat {d : Nat} (h : d < 10) : (digitChar d).toNat = 48 + d := by
  interval_cases d <;> decide

/-- The decimal digit characters lie between `'0'` and `'9'`. -/
theorem digitChar_isDigit {d : Nat} (h : d < 10) : '0' ≤ digitChar d ∧ digitChar d ≤ '9' := by
  interval_cases d <;> decide

/-- The digit parser distributes over list append. -/
theorem digitsVal_append (l1 l2 : List Char) (acc : Nat) :
    digitsVal (l1 ++ l2) acc = (digitsVal l1 acc).bind (fun m => digitsVal l2 m) := by
  induction l1 generalizing acc with
  | nil => simp [digitsVal]
  | cons c cs ih =>
    simp only [List.cons_append, digitsVal]
    split
    · exact ih _
    · rfl

/-- Correctness of the fueled digit-list printer against the digit parser. -/
theorem digitsVal_natStrAux (fuel : Nat) :
    ∀ n acc, n < fuel →
      digitsVal (natStrAux fuel n) acc = some (acc * 10 ^ (natStrAux fuel n).length + n) := by
  induction fuel with
  | zero => intro n acc h; omega
  | succ fuel ih =>
    intro n acc h
    by_cases h10 : n < 10
    · have hd := digitChar_isDigit h10
      simp only [natStrAux, if_pos h10, digitsVal, if_pos hd, digitChar_toNat h10,
        List.length_singleton, pow_one]
      congr 1
      omega
    · have hdiv : n / 10 < fuel := by
        have hlt : n / 10 < n := Nat.div_lt_self (by omega) (by omega)
        omega
      have hmod : n % 10 < 10 := Nat.mod_lt _ (by omega)
      have hd := digitChar_isDigit hmod
      simp only [natStrAux, if_neg h10]
      rw [digitsVal_append, ih (n / 10) acc hdiv]
      simp only [Option.some_bind, digitsVal, if_pos hd, digitChar_toNat hmod,
        List.length_append, List.length_singleton]
      congr 1
      have h48 : 48 + n % 10 - 48 = n % 10 := by omega
      rw [h48, pow_succ]
      have hsplit : (acc * 10 ^ (natStrAux fuel (n / 10)).length + n / 10) * 10 + n % 10 =
          acc * (10 ^ (natStrAux fuel (n / 10)).length * 10) + (n / 10 * 10 + n % 10) := by
        ring
      rw [hsplit]
      have hdm : n / 10 * 10 + n % 10 = n := by omega
      rw [hdm]

/-- The decimal printer round-trips through the digit parser. -/
theorem digitsVal_natStr (n : Nat) : digitsVal (natStr n) 0 = some n := by
  have := digitsVal_natStrAux (n + 1) n 0 (by omega)
  simpa using this

/-- The decimal printer never outputs the empty digit list. -/
theorem natStr_ne_nil (n : Nat) : natStr n ≠ [] := by
  unfold natStr natStrAux
  split <;> simp

/-- Every character the decimal printer outputs is a decimal digit. -/
theorem mem_natStr_digit (fuel : Nat) :
    ∀ n c, n < fuel → c ∈ natStrAux fuel n → '0' ≤ c ∧ c ≤ '9' := by
  induction fuel with
  | zero => intro n c h; omega
  | succ fuel ih =>
    intro n c h hc
    by_cases h10 : n < 10
    · simp only [natStrAux, if_pos h10, List.mem_singleton] at hc
      exact hc ▸ digitChar_isDigit h10
    · have hdiv : n / 10 < fuel := by
        have : n / 10 < n := Nat.div_lt_self (by omega) (by omega)
        omega
      simp only [natStrAux, if_neg h10, List.mem_append, List.mem_singleton] at hc
      rcases hc with hc | hc
      · exact ih _ _ hdiv hc
      · exact hc ▸ digitChar_isDigit (Nat.mod_lt _ (by omega))

/-- Evaluation of the digit run on a list the digit parser accepts. -/
theorem atoiDigits_eval (neg : Bool) (l : List Char) (n : Nat) (hne : ¬ l = [])
    (hdv : digitsVal l 0 = some n) :
    atoiDigits neg l =
      if int64Min ≤ (if neg then -(n : Int) else (n : Int)) ∧
          (if neg then -(n : Int) else (n : Int)) ≤ int64Max then
        some (if neg then -(n : Int) else (n : Int))
      else none := by
  unfold atoiDigits
  rw [if_neg (by simp [List.isEmpty_iff, hne]), hdv]

/-- A digit run parses to its value when it fits in the 64-bit range. -/
theorem atoiDigits_natStr (n : Nat) (hn : (n : Int) ≤ int64Max) :
    atoiDigits false (natStr n) = some (n : Int) := by
  rw [atoiDigits_eval false (natStr n) n (natStr_ne_nil n) (digitsVal_natStr n)]
  simp only [Bool.false_eq_true, if_false]
  rw [if_pos ⟨by unfold int64Min; omega, hn⟩]

/-- Go's `Atoi` parses back what Go's `Itoa` printed, for every value in the
64-bit range. -/
theorem atoi_itoa {v : Int} (h1 : int64Min ≤ v) (h2 : v ≤ int64Max) :
    atoi (itoa v) = some v := by
  by_cases hv : v < 0
  · have hdata : (itoa v).data = '-' :: natStr v.natAbs := by
      simp [itoa, if_pos hv]
    unfold atoi
    rw [hdata, show atoiAux ('-' :: natStr v.natAbs) = atoiDigits true (natStr v.natAbs) from rfl,
      atoiDigits_eval true (natStr v.natAbs) v.natAbs (natStr_ne_nil _) (digitsVal_natStr _)]
    simp only [if_true]
    have habs : -((v.natAbs : Nat) : Int) = v := by omega
    rw [habs, if_pos ⟨h1, h2⟩]
  · have hdata : (itoa v).data = natStr v.toNat := by
      simp [itoa, if_neg hv]
    unfold atoi
    rw [hdata]
    obtain ⟨c, cs, hcons⟩ : ∃ c cs, natStr v.toNat = c :: cs := by
      cases h : natStr v.toNat with
      | nil => exact absurd h (natStr_ne_nil _)
      | cons c cs => exact ⟨c, cs, rfl⟩
    have hdig : '0' ≤ c ∧ c ≤ '9' :=
      mem_natStr_digit (v.toNat + 1) v.toNat c (by omega)
        (by rw [show natStrAux (v.toNat + 1) v.toNat = natStr v.toNat from rfl, hcons]
            exact List.mem_cons_self c cs)
    have hplus : ¬ c = '+' := by rintro rfl; revert hdig; decide
    have hminus : ¬ c = '-' := by rintro rfl; revert hdig; decide
    rw [hcons]
    simp only [atoiAux, if_neg hplus, if_neg hminus]
    rw [← hcons, atoiDigits_natStr v.toNat (by unfold int64Max at h2 ⊢; omega)]
    congr 1
    omega

/-! ### Label-map lemmas -/

/-- A key no entry carries looks up to nothing. -/
theorem lookupLabel_eq_none_of_not_any {ls : Labels} {k : String}
    (h : ls.any (fun kv => kv.1 = k) = false) : lookupLabel ls k = none := by
  induction ls with
  | nil => rfl
  | cons kv rest ih =>
    simp only [List.any_cons, Bool.or_eq_false_iff] at h
    simp only [lookupLabel, if_neg (by simpa using h.1)]
    exact ih h.2

/-- Label lookup scans list append left to right. -/
theorem lookupLabel_append (l1 l2 : Labels) (k : String) :
    lookupLabel (l1 ++ l2) k =
      match lookupLabel l1 k with
      | some v => some v
      | none => lookupLabel l2 k := by
  induction l1 with
  | nil => rfl
  | cons kv rest ih =>
    simp only [List.cons_append, lookupLabel]
    split <;> simp [ih]

/-- Replacing the binding of a key in place, then reading that key, gives
the replacement value, provided the key was bound. -/
theorem lookupLabel_map_update (k v : String) :
    ∀ ls : Labels, ls.any (fun kv => kv.1 = k) = true →
      lookupLabel (ls.map (fun kv => if kv.1 = k then (k, v) else kv)) k = some v := by
  intro ls
  induction ls with
  | nil => intro h; simp at h
  | cons kv rest ih =>
    intro h
    obtain ⟨k1, v1⟩ := kv
    simp only [List.map_cons]
    by_cases hk : k1 = k
    · subst hk
      rw [show (if ((k1, v1) : String × String).1 = k1 then (k1, v) else (k1, v1)) = (k1, v) from
        if_pos rfl]
      simp [lookupLabel]
    · rw [show (if ((k1, v1) : String × String).1 = k then (k, v) else (k1, v1)) = (k1, v1) from
        if_neg hk]
      simp only [lookupLabel]
      rw [if_neg (show ¬ ((k1, v1) : String × String).1 = k from hk)]
      apply ih
      simp only [List.any_cons, Bool.or_eq_true] at h
      rcases h with h | h
      · exact absurd (by simpa using of_decide_eq_true h) hk
      · exact h

/-- Writing a label then reading the same key gives the written value. -/
theorem lookupLabel_setLabel_self (ls : Labels) (k v : String) :
    lookupLabel (setLabel ls k v) k = some v := by
  unfold setLabel
  split
  case isTrue h => exact lookupLabel_map_update k v ls h
  case isFalse h =>
    rw [Bool.not_eq_true] at h
    rw [lookupLabel_append, lookupLabel_eq_none_of_not_any h]
    simp [lookupLabel]

/-- Deleting a label then reading the same key gives nothing. -/
theorem lookupLabel_deleteLabel_self (ls : Labels) (k : String) :
    lookupLabel (deleteLabel ls k) k = none := by
  induction ls with
  | nil => rfl
  | cons kv rest ih =>
    unfold deleteLabel at *
    by_cases hk : kv.1 = k
    · simpa [List.filter_cons, hk] using ih
    · simpa [List.filter_cons, hk, lookupLabel] using ih

/-- The mutate-in-memory step leaves a record whose counter reads back as
exactly the value that was written, for every value in the 64-bit range:
deletion encodes `0`, otherwise the decimal string is stored. -/
theorem currentLabelValue_mutatedLabels (ws : webhookServer) (ls : Labels) {v : Int}
    (h1 : int64Min ≤ v) (h2 : v ≤ int64Max) :
    currentLabelValue ws.label (mutatedLabels ws ls v) = some v := by
  unfold mutatedLabels
  split
  case isTrue h =>
    unfold currentLabelValue
    rw [lookupLabel_deleteLabel_self]
    exact congrArg some h.1.symm
  case isFalse h =>
    unfold currentLabelValue
    rw [lookupLabel_setLabel_self]
    exact atoi_itoa h1 h2

/-! ### Store and engine evaluation lemmas -/

/-- Listing over a single-record store holding the requested, selector-matching
record returns exactly that record. -/
theorem listPods_singleton {st : Store} {pod : Pod} {ns name : String}
    {sel : List (String × String)} (hpods : st.pods = [pod]) (hns : pod.ns = ns)
    (hname : pod.name = name) (hsel : selectorMatches sel pod.labels = true) :
    listPods st ns name sel = [pod] := by
  unfold listPods
  rw [hpods]
  simp [List.filter_cons, hns, hname, hsel]

/-- Listing returns nothing when no record carries the requested identity. -/
theorem listPods_nil_of_no_match {st : Store} {ns name : String}
    {sel : List (String × String)}
    (h : ∀ p ∈ st.pods, ¬ (p.ns = ns ∧ p.name = name)) :
    listPods st ns name sel = [] := by
  unfold listPods
  have hfilter : st.pods.filter
      (fun p => decide (p.ns = ns ∧ p.name = name ∧ selectorMatches sel p.labels)) = [] := by
    rw [List.filter_eq_nil_iff]
    intro p hp
    simp only [decide_eq_true_eq]
    rintro ⟨h1, h2, _⟩
    exact h p hp ⟨h1, h2⟩
  rw [hfilter]
  rfl

/-- Listing returns nothing when the only record of the requested identity
does not match the selector. -/
theorem listPods_nil_of_selector {st : Store} {ns name : String}
    {sel : List (String × String)}
    (h : ∀ p ∈ st.pods, p.ns = ns → p.name = name → selectorMatches sel p.labels = false) :
    listPods st ns name sel = [] := by
  unfold listPods
  have hfilter : st.pods.filter
      (fun p => decide (p.ns = ns ∧ p.name = name ∧ selectorMatches sel p.labels)) = [] := by
    rw [List.filter_eq_nil_iff]
    intro p hp
    simp only [decide_eq_true_eq]
    rintro ⟨h1, h2, h3⟩
    rw [h p hp h1 h2] at h3
    cases h3
  rw [hfilter]
  rfl

/-- Finding in a single-record store. -/
theorem findPod_singleton {st : Store} {pod : Pod} (hpods : st.pods = [pod]) :
    findPod st pod.ns pod.name = some pod := by
  unfold findPod
  rw [hpods]
  simp [List.find?]

/-- A conditional write against a single-record store succeeds when the
submitted record carries the stored resource version, producing the store
holding the submitted record at the next version. -/
theorem conditionalUpdate_singleton_ok {st : Store} {cur q : Pod} (hpods : st.pods = [cur])
    (hns : q.ns = cur.ns) (hname : q.name = cur.name)
    (hver : q.resourceVersion = cur.resourceVersion) :
    conditionalUpdate st q = .ok ⟨[{ q with resourceVersion := cur.resourceVersion + 1 }]⟩ := by
  unfold conditionalUpdate
  rw [show findPod st q.ns q.name = some cur by
    unfold findPod; rw [hpods]; simp [List.find?, hns, hname]]
  simp only []
  rw [if_pos hver.symm, hpods]
  simp [hns, hname]

/-- A conditional write against a single-record store is rejected as a
conflict when the stored resource version has moved on. -/
theorem conditionalUpdate_singleton_conflict {st : Store} {cur q : Pod}
    (hpods : st.pods = [cur]) (hns : q.ns = cur.ns) (hname : q.name = cur.name)
    (hver : ¬ cur.resourceVersion = q.resourceVersion) :
    conditionalUpdate st q = .conflict := by
  unfold conditionalUpdate
  rw [show findPod st q.ns q.name = some cur by
    unfold findPod; rw [hpods]; simp [List.find?, hns, hname]]
  simp only []
  rw [if_neg hver]

/-- Reading the counter from a record without the label. -/
theorem currentLabelValue_of_lookup_none {label : String} {ls : Labels}
    (h : lookupLabel ls label = none) : currentLabelValue label ls = some 0 := by
  unfold currentLabelValue
  rw [h]

/-- Reading the counter from a record carrying the label. -/
theorem currentLabelValue_of_lookup_some {label : String} {ls : Labels} {s : String}
    (h : lookupLabel ls label = some s) : currentLabelValue label ls = atoi s := by
  unfold currentLabelValue
  rw [h]

/-- Evaluation of the write tail of a clean attempt over a single-record
store: the write succeeds and the record is replaced by its mutated copy at
the next resource version, the new value is printed to the response, and nil
is returned. -/
theorem updateLabelWrite_clean (ws : webhookServer) (st : Store) (w : Response) (pod : Pod)
    (v : Int) (cb : Int → Int) (hpods : st.pods = [pod]) :
    updateLabelWrite ws cleanAttempt st w pod v cb =
      (⟨[{ pod with
           labels := mutatedLabels ws pod.labels (cb v)
           resourceVersion := pod.resourceVersion + 1 }]⟩,
       writeBody w (itoa (cb v)), none) := by
  unfold updateLabelWrite cleanAttempt
  simp only [Bool.false_eq_true, if_false, ite_false]
  rw [conditionalUpdate_singleton_ok
    (q := { pod with labels := mutatedLabels ws pod.labels (cb v) }) hpods rfl rfl rfl]

/-- Evaluating an attempt whose fetch finds the target record: the attempt
reduces to the write tail at the parsed counter value. -/
theorem updateLabel_found {ws : webhookServer} {a : Attempt} {st : Store} {w : Response}
    {podName : String} {cb : Int → Int} {pod : Pod} {v : Int}
    (hlistErr : a.listErr = none)
    (hlist : listPods st ws.ns podName ws.labelSelector = [pod])
    (hval : currentLabelValue ws.label pod.labels = some v) :
    updateLabel ws a st w podName cb = updateLabelWrite ws a st w pod v cb := by
  unfold updateLabel
  simp only [hlistErr, hlist]
  cases hlook : lookupLabel pod.labels ws.label with
  | none =>
    rw [currentLabelValue_of_lookup_none hlook] at hval
    simp only [Option.some.injEq] at hval
    simp only [hlook, ← hval]
  | some s =>
    rw [currentLabelValue_of_lookup_some hlook] at hval
    simp only [hlook, hval]

/-- Evaluating an attempt whose fetch finds the target record but whose
counter label does not parse: 500 `Invalid ... label value`, the corrupt
error class, and an untouched store. -/
theorem updateLabel_corrupt {ws : webhookServer} {a : Attempt} {st : Store} {w : Response}
    {podName : String} {cb : Int → Int} {pod : Pod} {s : String}
    (hlistErr : a.listErr = none)
    (hlist : listPods st ws.ns podName ws.labelSelector = [pod])
    (hlook : lookupLabel pod.labels ws.label = some s)
    (hatoi : atoi s = none) :
    updateLabel ws a st w podName cb =
      (st, httpError w ("Invalid " ++ goQuote ws.label ++ " label value: " ++ goQuote s) 500,
       some (.invalidLabelValue ws.label s)) := by
  unfold updateLabel
  simp only [hlistErr, hlist, hlook, hatoi]

/-- Evaluating an attempt whose fetch comes back empty: 404 `Pod not found`,
the not-found error class, and an untouched store. -/
theorem updateLabel_notFound {ws : webhookServer} {a : Attempt} {st : Store} {w : Response}
    {podName : String} {cb : Int → Int}
    (hlistErr : a.listErr = none)
    (hlist : listPods st ws.ns podName ws.labelSelector = []) :
    updateLabel ws a st w podName cb =
      (st, httpError w "Pod not found" 404, some (.podNotFound podName ws.ns)) := by
  unfold updateLabel
  simp only [hlistErr, hlist]

/-- Evaluating an attempt whose List call fails: 500 `Failed to list pods`,
the store-unavailable error class, and an untouched store. -/
theorem updateLabel_listFailed {ws : webhookServer} {a : Attempt} {st : Store} {w : Response}
    {podName : String} {cb : Int → Int} {msg : String}
    (hlistErr : a.listErr = some msg) :
    updateLabel ws a st w podName cb =
      (st, httpError w ("Failed to list pods: " ++ msg) 500, some (.listFailed msg)) := by
  unfold updateLabel
  simp only [hlistErr]

/-- A retrying engine run whose first attempt returns a non-conflict error
stops immediately with that attempt's outcome: no retry happens, whatever
attempt budget remains. -/
theorem retryOnConflict_stops {ws : webhookServer} {podName : String} {cb : Int → Int}
    {steps : Nat} {atts : List Attempt} {st st' : Store} {w w' : Response} {e : EngineErr}
    (hrun : updateLabel ws (atts.headD cleanAttempt) st w podName cb = (st', w', some e))
    (hnc : e.isConflict = false) :
    retryOnConflict ws podName cb (steps + 1) atts st w = (st', w', some e) := by
  unfold retryOnConflict
  rw [hrun]
  simp [hnc]

/-- A retrying engine run whose first attempt succeeds stops immediately
with that attempt's outcome. -/
theorem retryOnConflict_ok {ws : webhookServer} {podName : String} {cb : Int → Int}
    {steps : Nat} {atts : List Attempt} {st st' : Store} {w w' : Response}
    (hrun : updateLabel ws (atts.headD cleanAttempt) st w podName cb = (st', w', none)) :
    retryOnConflict ws podName cb (steps + 1) atts st w = (st', w', none) := by
  unfold retryOnConflict
  rw [hrun]

/-- A retrying engine run whose first attempt hits a write conflict re-runs
with the rest of the budget, from the store and response the conflicted
attempt left behind. -/
theorem retryOnConflict_conflict {ws : webhookServer} {podName : String} {cb : Int → Int}
    {steps : Nat} {atts : List Attempt} {st st' : Store} {w w' : Response}
    (hstep : ¬ steps = 0)
    (hrun : updateLabel ws (atts.headD cleanAttempt) st w podName cb =
      (st', w', some .updateConflict)) :
    retryOnConflict ws podName cb (steps + 1) atts st w =
      retryOnConflict ws podName cb steps atts.tail st' w' := by
  conv_lhs => unfold retryOnConflict
  rw [hrun]
  simp [EngineErr.isConflict, hstep]

/-! ### Concurrent increment executions

Each inbound increment request runs the engine's read-compute-write cycle
concurrently with the others; the only shared state is the store, and the
only interleaving points are the two store round-trips (the List fetch and
the conditional write), exactly as in §5 of the design.  A client of the
system below is one in-flight `/increment` request after the HTTP checks,
carrying its remaining `retry.DefaultBackoff` attempt budget. -/

/-- One in-flight increment caller. -/
inductive IncClient where
  | ready (attemptsLeft : Nat)
  | holding (attemptsLeft : Nat) (snapshot : Pod)
  | succeeded (v : Int)
  | exhausted
  | errored
deriving DecidableEq, Repr

/-- State of the whole system: the store plus every in-flight caller. -/
structure IncSystem where
  store : Store
  clients : List IncClient
deriving DecidableEq, Repr

/-- Small-step interleaving semantics of `N` concurrent increment requests
against one record: a `ready` caller performs the fetch of `updateLabel`
(becoming `holding` a snapshot, or `errored` on not-found); a `holding`
caller parses its snapshot and performs the conditional write, which either
succeeds (`succeeded`, the store advances), conflicts (back to `ready` with
one fewer attempt, or `exhausted` when the `retry.DefaultBackoff` budget is
spent — the request answers 500), or fails terminally. -/
inductive IncStep (ws : webhookServer) (podName : String) : IncSystem → IncSystem → Prop
  | fetch (s : IncSystem) (i k : Nat) (p : Pod) :
      s.clients.get? i = some (.ready (k + 1)) →
      listPods s.store ws.ns podName ws.labelSelector = [p] →
      IncStep ws podName s ⟨s.store, s.clients.set i (.holding (k + 1) p)⟩
  | fetchNotFound (s : IncSystem) (i k : Nat) :
      s.clients.get? i = some (.ready (k + 1)) →
      listPods s.store ws.ns podName ws.labelSelector = [] →
      IncStep ws podName s ⟨s.store, s.clients.set i .errored⟩
  | parseFailed (s : IncSystem) (i k : Nat) (p : Pod) (str : String) :
      s.clients.get? i = some (.holding k p) →
      lookupLabel p.labels ws.label = some str →
      atoi str = none →
      IncStep ws podName s ⟨s.store, s.clients.set i .errored⟩
  | writeOk (s : IncSystem) (i k : Nat) (p : Pod) (v : Int) (st2 : Store) :
      s.clients.get? i = some (.holding k p) →
      currentLabelValue ws.label p.labels = some v →
      conditionalUpdate s.store
        { p with labels := mutatedLabels ws p.labels (incrementCallback v) } = .ok st2 →
      IncStep ws podName s ⟨st2, s.clients.set i (.succeeded (incrementCallback v))⟩
  | writeConflict (s : IncSystem) (i k : Nat) (p : Pod) (v : Int) :
      s.clients.get? i = some (.holding (k + 1) p) →
      currentLabelValue ws.label p.labels = some v →
      conditionalUpdate s.store
        { p with labels := mutatedLabels ws p.labels (incrementCallback v) } = .conflict →
      IncStep ws podName s
        ⟨s.store, s.clients.set i (if k = 0 then .exhausted else .ready k)⟩
  | writeGone (s : IncSystem) (i k : Nat) (p : Pod) (v : Int) :
      s.clients.get? i = some (.holding k p) →
      currentLabelValue ws.label p.labels = some v →
      conditionalUpdate s.store
        { p with labels := mutatedLabels ws p.labels (incrementCallback v) } = .notFound →
      IncStep ws podName s ⟨s.store, s.clients.set i .errored⟩

/-- Finitely many interleaved steps. -/
def IncReaches (ws : webhookServer) (podName : String) : IncSystem → IncSystem → Prop :=
  Relation.ReflTransGen (IncStep ws podName)

/-- Whether a caller has succeeded. -/
def IncClient.isSucceeded : IncClient → Bool
  | .succeeded _ => true
  | _ => false

/-- Number of callers whose increment has been applied and acknowledged. -/
def countSucceeded (cs : List IncClient) : Nat := cs.countP IncClient.isSucceeded

/-- Replacing one element changes `countP` by the predicate's change on the
replaced element. -/
theorem countP_set_of_get? {α : Type _} (p : α → Bool) :
    ∀ (l : List α) (i : Nat) (a b : α), l.get? i = some a →
      (l.set i b).countP p + (if p a then 1 else 0) = l.countP p + (if p b then 1 else 0) := by
  intro l
  induction l with
  | nil => intro i a b h; simp at h
  | cons x xs ih =>
    intro i a b h
    cases i with
    | zero =>
      simp only [List.get?] at h
      injection h with h
      subst h
      simp only [List.set, List.countP_cons]
      cases hpa : p x <;> cases hpb : p b <;> simp [hpa, hpb]
    | succ i =>
      simp only [List.get?] at h
      simp only [List.set, List.countP_cons]
      have hrec := ih i a b h
      omega

/-- Replacing a non-succeeded caller by a non-succeeded caller keeps the
success count. -/
theorem countSucceeded_set_eq {cs : List IncClient} {i : Nat} {a b : IncClient}
    (hget : cs.get? i = some a) (ha : a.isSucceeded = false) (hb : b.isSucceeded = false) :
    countSucceeded (cs.set i b) = countSucceeded cs := by
  have h := countP_set_of_get? IncClient.isSucceeded cs i a b hget
  rw [ha, hb] at h
  simpa [countSucceeded] using h

/-- Replacing a non-succeeded caller by a succeeded one adds one success. -/
theorem countSucceeded_set_succ {cs : List IncClient} {i : Nat} {a : IncClient} {v : Int}
    (hget : cs.get? i = some a) (ha : a.isSucceeded = false) :
    countSucceeded (cs.set i (.succeeded v)) = countSucceeded cs + 1 := by
  have h := countP_set_of_get? IncClient.isSucceeded cs i a (.succeeded v) hget
  rw [ha] at h
  simpa [countSucceeded, IncClient.isSucceeded] using h

/-- Snapshot discipline: a snapshot a caller holds carries the target
record's identity, a resource version no newer than the store's, and when
its version still matches the store's the snapshot IS the stored record —
the store's version token uniquely identifies the record's content along an
execution. -/
def goodSnapshot (cur p : Pod) : Prop :=
  p.ns = cur.ns ∧ p.name = cur.name ∧ p.resourceVersion ≤ cur.resourceVersion ∧
    (p.resourceVersion = cur.resourceVersion → p = cur)

/-- Execution invariant of `N` concurrent increments against one record
starting at counter `v0`: the store holds exactly the target record, its
counter reads as `v0` plus the number of callers that have succeeded
(wrapped at 64 bits), the number of callers never changes, and every held
snapshot obeys the snapshot discipline. -/
def IncInv (ws : webhookServer) (podName : String) (v0 : Int) (n : Nat)
    (s : IncSystem) : Prop :=
  ∃ cur : Pod,
    s.store.pods = [cur] ∧ cur.ns = ws.ns ∧ cur.name = podName ∧
    currentLabelValue ws.label cur.labels = some (wrap64 (v0 + countSucceeded s.clients)) ∧
    s.clients.length = n ∧
    ∀ k p, IncClient.holding k p ∈ s.clients → goodSnapshot cur p

/-- The invariant survives every interleaved step (the empty selector keeps
the mutated record listable). -/
theorem IncInv_preserved {ws : webhookServer} {podName : String} {v0 : Int} {n : Nat}
    (hsel : ws.labelSelector = []) {s s' : IncSystem}
    (hinv : IncInv ws podName v0 n s) (hstep : IncStep ws podName s s') :
    IncInv ws podName v0 n s' := by
  obtain ⟨cur, hpods, hns, hname, hval, hlen, hsnap⟩ := hinv
  have hlistcur : listPods s.store ws.ns podName ws.labelSelector = [cur] :=
    listPods_singleton hpods hns hname (by rw [hsel]; rfl)
  cases hstep with
  | fetch i k p hget hlist =>
    have hpcur : p = cur := by
      rw [hlist] at hlistcur
      exact (List.cons_eq_cons.mp hlistcur).1
    subst hpcur
    refine ⟨p, hpods, hns, hname, ?_, ?_, ?_⟩
    · have hc : countSucceeded (s.clients.set i (.holding (k + 1) p)) =
          countSucceeded s.clients := countSucceeded_set_eq hget rfl rfl
      rw [hc]
      exact hval
    · rw [List.length_set]
      exact hlen
    · intro k' p' hmem
      rcases List.mem_or_eq_of_mem_set hmem with hmem | heq
      · exact hsnap k' p' hmem
      · injection heq with h1 h2
        subst h2
        exact ⟨rfl, rfl, le_refl _, fun _ => rfl⟩
  | fetchNotFound i k hget hlist =>
    refine ⟨cur, hpods, hns, hname, ?_, ?_, ?_⟩
    · have hc : countSucceeded (s.clients.set i .errored) =
          countSucceeded s.clients := countSucceeded_set_eq hget rfl rfl
      rw [hc]
      exact hval
    · rw [List.length_set]
      exact hlen
    · intro k' p' hmem
      rcases List.mem_or_eq_of_mem_set hmem with hmem | heq
      · exact hsnap k' p' hmem
      · simp at heq
  | parseFailed i k p str hget hlook hatoi =>
    refine ⟨cur, hpods, hns, hname, ?_, ?_, ?_⟩
    · have hc : countSucceeded (s.clients.set i .errored) =
          countSucceeded s.clients := countSucceeded_set_eq hget rfl rfl
      rw [hc]
      exact hval
    · rw [List.length_set]
      exact hlen
    · intro k' p' hmem
      rcases List.mem_or_eq_of_mem_set hmem with hmem | heq
      · exact hsnap k' p' hmem
      · simp at heq
  | writeGone i k p v hget hv hupd =>
    refine ⟨cur, hpods, hns, hname, ?_, ?_, ?_⟩
    · have hc : countSucceeded (s.clients.set i .errored) =
          countSucceeded s.clients := countSucceeded_set_eq hget rfl rfl
      rw [hc]
      exact hval
    · rw [List.length_set]
      exact hlen
    · intro k' p' hmem
      rcases List.mem_or_eq_of_mem_set hmem with hmem | heq
      · exact hsnap k' p' hmem
      · simp at heq
  | writeConflict i k p v hget hv hupd =>
    refine ⟨cur, hpods, hns, hname, ?_, ?_, ?_⟩
    · have hc : countSucceeded (s.clients.set i (if k = 0 then .exhausted else .ready k)) =
          countSucceeded s.clients := countSucceeded_set_eq hget rfl (by split <;> rfl)
      rw [hc]
      exact hval
    · rw [List.length_set]
      exact hlen
    · intro k' p' hmem
      rcases List.mem_or_eq_of_mem_set hmem with hmem | heq
      · exact hsnap k' p' hmem
      · split at heq <;> simp at heq
  | writeOk i k p v st2 hget hv hupd =>
    have hmem : IncClient.holding k p ∈ s.clients := List.get?_mem hget
    obtain ⟨hpns, hpname, hple, hpeq⟩ := hsnap k p hmem
    by_cases hver : p.resourceVersion = cur.resourceVersion
    · have hpcur : p = cur := hpeq hver
      subst hpcur
      rw [conditionalUpdate_singleton_ok
        (q := { p with labels := mutatedLabels ws p.labels (incrementCallback v) })
        hpods rfl rfl rfl] at hupd
      injection hupd with hupd
      have hveq : v = wrap64 (v0 + (countSucceeded s.clients : Int)) :=
        Option.some.inj (hv.symm.trans hval)
      have hcnt : countSucceeded (s.clients.set i (.succeeded (incrementCallback v))) =
          countSucceeded s.clients + 1 := countSucceeded_set_succ hget rfl
      refine ⟨{ p with
                labels := mutatedLabels ws p.labels (incrementCallback v)
                resourceVersion := p.resourceVersion + 1 }, ?_, hns, hname, ?_, ?_, ?_⟩
      · rw [← hupd]
      · rw [hcnt]
        have hb1 : int64Min ≤ incrementCallback v := (wrap64_mem (v + 1)).1
        have hb2 : incrementCallback v ≤ int64Max := (wrap64_mem (v + 1)).2
        rw [currentLabelValue_mutatedLabels ws p.labels hb1 hb2]
        have hrw : incrementCallback v =
            wrap64 (v0 + ((countSucceeded s.clients + 1 : Nat) : Int)) := by
          unfold incrementCallback
          rw [hveq, wrap64_wrap64_add]
          congr 1
          push_cast
          ring
        rw [hrw]
      · rw [List.length_set]
        exact hlen
      · intro k' p' hmem'
        rcases List.mem_or_eq_of_mem_set hmem' with hmem' | heq
        · obtain ⟨h1, h2, h3, h4⟩ := hsnap k' p' hmem'
          refine ⟨h1, h2, le_trans h3 (Nat.le_succ _), ?_⟩
          intro hv'
          exact absurd (show p'.resourceVersion = p.resourceVersion + 1 from hv') (by omega)
        · simp at heq
    · rw [conditionalUpdate_singleton_conflict
        (q := { p with labels := mutatedLabels ws p.labels (incrementCallback v) })
        hpods hpns hpname (fun h => hver h.symm)] at hupd
      simp at hupd

/-- C1 (amended): starting from a store holding exactly the target record
with counter value `v0` and `n` concurrent increment callers, every
execution in which all `n` callers succeed ends with the stored counter
reading exactly `v0 + n` (for totals within the 64-bit range); the success
count matches because the store's conditional write admits each observed
base value at most once, so a conflicted caller always recomputes from
fresh state and no two successful increments share a base. -/
theorem c1_no_lost_updates (ws : webhookServer) (podName : String) (v0 : Int) (n : Nat)
    (cur0 : Pod) (init final : IncSystem)
    (hsel : ws.labelSelector = [])
    (hpods : init.store.pods = [cur0]) (hns : cur0.ns = ws.ns) (hname : cur0.name = podName)
    (hval : currentLabelValue ws.label cur0.labels = some v0)
    (hlen : init.clients.length = n)
    (hready : ∀ c ∈ init.clients, ∃ k, c = IncClient.ready k)
    (hlo : int64Min ≤ v0) (hhi : v0 + n ≤ int64Max)
    (hreach : IncReaches ws podName init final)
    (hsucc : ∀ c ∈ final.clients, c.isSucceeded = true) :
    storeValue ws.label final.store ws.ns podName = some (v0 + n) ∧
      countSucceeded final.clients = n := by
  have hn0 : (0 : Int) ≤ (n : Int) := Int.ofNat_nonneg n
  have hinv0 : IncInv ws podName v0 n init := by
    refine ⟨cur0, hpods, hns, hname, ?_, hlen, ?_⟩
    · have hzero : countSucceeded init.clients = 0 := by
        unfold countSucceeded
        rw [List.countP_eq_zero]
        intro c hc
        obtain ⟨k, hk⟩ := hready c hc
        subst hk
        simp [IncClient.isSucceeded]
      rw [hzero]
      have hwrap : wrap64 (v0 + (0 : Nat)) = v0 := by
        rw [show v0 + ((0 : Nat) : Int) = v0 by push_cast; ring]
        exact wrap64_eq_self hlo (by omega)
      rw [hwrap]
      exact hval
    · intro k p hmem
      obtain ⟨k', hk'⟩ := hready _ hmem
      simp at hk'
  have hinv : IncInv ws podName v0 n final := by
    clear hsucc
    induction hreach with
    | refl => exact hinv0
    | tail _ hstep ih => exact IncInv_preserved hsel ih hstep
  obtain ⟨cur, hpods', hns', hname', hval', hlen', _⟩ := hinv
  have hcnt : countSucceeded final.clients = n := by
    unfold countSucceeded
    rw [List.countP_eq_length.mpr hsucc]
    exact hlen'
  refine ⟨?_, hcnt⟩
  unfold storeValue
  rw [← hns', ← hname']
  simp only [findPod_singleton hpods']
  rw [hval', hcnt]
  have hrange : wrap64 (v0 + (n : Int)) = v0 + n :=
    wrap64_eq_self (by unfold int64Min at hlo ⊢; omega) hhi
  rw [hrange]

/-- Record of the C1 witness run before any increment: no counter label. -/
def c1wPod : Pod := ⟨"default", "job-1", [], 0⟩

/-- Record of the C1 witness run after the first successful increment. -/
def c1wPod1 : Pod := ⟨"default", "job-1", [("active-jobs", "1")], 1⟩

/-- Record of the C1 witness run after the second successful increment. -/
def c1wPod2 : Pod := ⟨"default", "job-1", [("active-jobs", "2")], 2⟩

/-- Two concurrent increment callers, each with the full attempt budget. -/
def c1wInit : IncSystem := ⟨⟨[c1wPod]⟩, [.ready 4, .ready 4]⟩

/-- Both callers succeeded; the second one needed a conflict retry. -/
def c1wFinal : IncSystem := ⟨⟨[c1wPod2]⟩, [.succeeded 1, .succeeded 2]⟩

/-- An interleaving of the two callers of `c1wInit` in which both fetch the
initial record, the first one wins the conditional write, and the second one
conflicts, re-fetches and succeeds on its second attempt. -/
theorem c1wReach : IncReaches defaultServer "job-1" c1wInit c1wFinal :=
  .head (IncStep.fetch c1wInit 0 3 c1wPod rfl rfl)
    (.head (IncStep.fetch ⟨⟨[c1wPod]⟩, [.holding 4 c1wPod, .ready 4]⟩ 1 3 c1wPod rfl rfl)
      (.head (IncStep.writeOk ⟨⟨[c1wPod]⟩, [.holding 4 c1wPod, .holding 4 c1wPod]⟩ 0 4 c1wPod 0
          ⟨[c1wPod1]⟩ rfl rfl rfl)
        (.head (IncStep.writeConflict ⟨⟨[c1wPod1]⟩, [.succeeded 1, .holding 4 c1wPod]⟩ 1 3
            c1wPod 0 rfl rfl rfl)
          (.head (IncStep.fetch ⟨⟨[c1wPod1]⟩, [.succeeded 1, .ready 3]⟩ 1 2 c1wPod1 rfl rfl)
            (.head (IncStep.writeOk ⟨⟨[c1wPod1]⟩, [.succeeded 1, .holding 3 c1wPod1]⟩ 1 3
                c1wPod1 1 ⟨[c1wPod2]⟩ rfl rfl rfl)
              .refl)))))

/-- Closed instantiation of `c1_no_lost_updates` on the concrete two-caller
run of `c1wReach`: both callers succeed and the counter ends at `0 + 2`. -/
theorem c1_no_lost_updates_witness :
    storeValue "active-jobs" c1wFinal.store "default" "job-1" =
        some ((0 : Int) + ((2 : Nat) : Int)) ∧
      countSucceeded c1wFinal.clients = 2 :=
  c1_no_lost_updates defaultServer "job-1" 0 2 c1wPod c1wInit c1wFinal rfl rfl rfl rfl rfl rfl
    (by intro c hc; fin_cases hc <;> exact ⟨4, rfl⟩)
    (by decide) (by decide) c1wReach (by decide)

/-- Record of the C1 counterexample run before any increment: no counter
label, resource version 0. -/
def c1xPod0 : Pod := ⟨"default", "job-1", [], 0⟩

/-- Record of the C1 counterexample run after one successful increment. -/
def c1xPod1 : Pod := ⟨"default", "job-1", [("active-jobs", "1")], 1⟩

/-- Record of the C1 counterexample run after two successful increments. -/
def c1xPod2 : Pod := ⟨"default", "job-1", [("active-jobs", "2")], 2⟩

/-- Record of the C1 counterexample run after three successful increments. -/
def c1xPod3 : Pod := ⟨"default", "job-1", [("active-jobs", "3")], 3⟩

/-- Record of the C1 counterexample run after four successful increments. -/
def c1xPod4 : Pod := ⟨"default", "job-1", [("active-jobs", "4")], 4⟩

/-- Five concurrent increment callers, each with the full attempt budget. -/
def c1xInit : IncSystem := ⟨⟨[c1xPod0]⟩, List.replicate 5 (.ready defaultBackoffSteps)⟩

/-- Final state of the C1 counterexample run: callers 1-4 succeeded, caller 0
exhausted its conflict-retry budget; the counter stores 4, not 5. -/
def c1xFinal : IncSystem :=
  ⟨⟨[c1xPod4]⟩, [.exhausted, .succeeded 1, .succeeded 2, .succeeded 3, .succeeded 4]⟩

/-- The adversarial schedule: between each fetch of caller 0 and its write,
one of the other four callers completes a full increment, so caller 0's four
attempts all end in version conflicts. -/
theorem c1xReach : IncReaches defaultServer "job-1" c1xInit c1xFinal :=
  .head (IncStep.fetch c1xInit 0 3 c1xPod0 rfl rfl)
  (.head (IncStep.fetch ⟨⟨[c1xPod0]⟩,
      [.holding 4 c1xPod0, .ready 4, .ready 4, .ready 4, .ready 4]⟩ 1 3 c1xPod0 rfl rfl)
  (.head (IncStep.writeOk ⟨⟨[c1xPod0]⟩,
      [.holding 4 c1xPod0, .holding 4 c1xPod0, .ready 4, .ready 4, .ready 4]⟩ 1 4 c1xPod0 0
      ⟨[c1xPod1]⟩ rfl rfl rfl)
  (.head (IncStep.writeConflict ⟨⟨[c1xPod1]⟩,
      [.holding 4 c1xPod0, .succeeded 1, .ready 4, .ready 4, .ready 4]⟩ 0 3 c1xPod0 0
      rfl rfl rfl)
  (.head (IncStep.fetch ⟨⟨[c1xPod1]⟩,
      [.ready 3, .succeeded 1, .ready 4, .ready 4, .ready 4]⟩ 0 2 c1xPod1 rfl rfl)
  (.head (IncStep.fetch ⟨⟨[c1xPod1]⟩,
      [.holding 3 c1xPod1, .succeeded 1, .ready 4, .ready 4, .ready 4]⟩ 2 3 c1xPod1 rfl rfl)
  (.head (IncStep.writeOk ⟨⟨[c1xPod1]⟩,
      [.holding 3 c1xPod1, .succeeded 1, .holding 4 c1xPod1, .ready 4, .ready 4]⟩ 2 4 c1xPod1 1
      ⟨[c1xPod2]⟩ rfl rfl rfl)
  (.head (IncStep.writeConflict ⟨⟨[c1xPod2]⟩,
      [.holding 3 c1xPod1, .succeeded 1, .succeeded 2, .ready 4, .ready 4]⟩ 0 2 c1xPod1 1
      rfl rfl rfl)
  (.head (IncStep.fetch ⟨⟨[c1xPod2]⟩,
      [.ready 2, .succeeded 1, .succeeded 2, .ready 4, .ready 4]⟩ 0 1 c1xPod2 rfl rfl)
  (.head (IncStep.fetch ⟨⟨[c1xPod2]⟩,
      [.holding 2 c1xPod2, .succeeded 1, .succeeded 2, .ready 4, .ready 4]⟩ 3 3 c1xPod2 rfl rfl)
  (.head (IncStep.writeOk ⟨⟨[c1xPod2]⟩,
      [.holding 2 c1xPod2, .succeeded 1, .succeeded 2, .holding 4 c1xPod2, .ready 4]⟩ 3 4
      c1xPod2 2 ⟨[c1xPod3]⟩ rfl rfl rfl)
  (.head (IncStep.writeConflict ⟨⟨[c1xPod3]⟩,
      [.holding 2 c1xPod2, .succeeded 1, .succeeded 2, .succeeded 3, .ready 4]⟩ 0 1 c1xPod2 2
      rfl rfl rfl)
  (.head (IncStep.fetch ⟨⟨[c1xPod3]⟩,
      [.ready 1, .succeeded 1, .succeeded 2, .succeeded 3, .ready 4]⟩ 0 0 c1xPod3 rfl rfl)
  (.head (IncStep.fetch ⟨⟨[c1xPod3]⟩,
      [.holding 1 c1xPod3, .succeeded 1, .succeeded 2, .succeeded 3, .ready 4]⟩ 4 3 c1xPod3
      rfl rfl)
  (.head (IncStep.writeOk ⟨⟨[c1xPod3]⟩,
      [.holding 1 c1xPod3, .succeeded 1, .succeeded 2, .succeeded 3, .holding 4 c1xPod3]⟩ 4 4
      c1xPod3 3 ⟨[c1xPod4]⟩ rfl rfl rfl)
  (.head (IncStep.writeConflict ⟨⟨[c1xPod4]⟩,
      [.holding 1 c1xPod3, .succeeded 1, .succeeded 2, .succeeded 3, .succeeded 4]⟩ 0 0
      c1xPod3 3 rfl rfl rfl)
  .refl)))))))))))))))

/-- C1 is false as universally stated: five concurrent increment calls
against a counter starting at 0, under a schedule in which one of the other
callers completes a full increment between each of caller 0's fetches and
writes, leave the final stored counter at 4, not 0 + 5 — caller 0 burns all
four `retry.DefaultBackoff` attempts on version conflicts and gives up
(answering 500), so its increment is lost. -/
theorem c1_counterexample :
    IncReaches defaultServer "job-1" c1xInit c1xFinal ∧
      storeValue "active-jobs" c1xInit.store "default" "job-1" = some 0 ∧
      c1xInit.clients = List.replicate 5 (.ready defaultBackoffSteps) ∧
      c1xFinal.clients =
        [IncClient.exhausted, .succeeded 1, .succeeded 2, .succeeded 3, .succeeded 4] ∧
      storeValue "active-jobs" c1xFinal.store "default" "job-1" = some 4 ∧
      ¬ storeValue "active-jobs" c1xFinal.store "default" "job-1" =
        some ((0 : Int) + ((5 : Nat) : Int)) :=
  ⟨c1xReach, rfl, rfl, rfl, rfl, by decide⟩

/-! ### Claim theorems for the sequential engine -/

/-- Store of the C2 failing input: the target record at counter `1`. -/
def c2st : Store := ⟨[⟨"default", "job-1", [("active-jobs", "1")], 0⟩]⟩

/-- C2 (code bug, evaluation at the failing input): a POST increment whose
first conditional write conflicts (a concurrent writer touched the record
between fetch and write) and whose second attempt succeeds.  The retry does
recover — the store ends at counter `2` and the engine's final error is nil
— but the HTTP response already committed status 500 with body
`Failed to update pod label` during the conflicted attempt, because
`updateLabel` calls `http.Error` before returning the retryable conflict
error; the success value `2` is merely appended to the 500 body.  The claim
(and src's own use of `retry.RetryOnConflict`) requires the 500 only when
the budget is exhausted. -/
theorem c2_conflict_commits_500 :
    retryOnConflict defaultServer "job-1" incrementCallback defaultBackoffSteps
        [⟨none, true, false⟩] c2st emptyResponse =
      (⟨[⟨"default", "job-1", [("active-jobs", "2")], 2⟩]⟩,
       ⟨some 500, "Failed to update pod label\n2"⟩, none) ∧
    incrementHandler defaultServer "POST" "job-1" [⟨none, true, false⟩] c2st =
      (⟨[⟨"default", "job-1", [("active-jobs", "2")], 2⟩]⟩,
       ⟨some 500, "Failed to update pod label\n2"⟩) := by
  constructor <;> rfl

/-- C3: a decrement when the current counter value is `0` and allow-negative
is off yields exactly `0` — never a negative value and never an error: the
attempt succeeds with a 200-committed response printing `0`, and the written
record carries no counter label when remove-on-zero is set, or the string
`"0"` otherwise.  The floor is applied inside the decrement delta function
itself (`decrementCallback ws 0 = 0`), before the remove-on-zero decision. -/
theorem c3_floor (ws : webhookServer) (podName : String) (st : Store) (pod : Pod)
    (hneg : ws.allowNegative = false)
    (hpods : st.pods = [pod]) (hns : pod.ns = ws.ns) (hname : pod.name = podName)
    (hsel : selectorMatches ws.labelSelector pod.labels = true)
    (hval : currentLabelValue ws.label pod.labels = some 0) :
    decrementCallback ws 0 = 0 ∧
    updateLabel ws cleanAttempt st emptyResponse podName (decrementCallback ws) =
      (⟨[{ pod with
           labels := mutatedLabels ws pod.labels 0
           resourceVersion := pod.resourceVersion + 1 }]⟩,
       ⟨some 200, "0"⟩, none) ∧
    lookupLabel (mutatedLabels ws pod.labels 0) ws.label =
      (if ws.removeOnZero then none else some "0") := by
  have hcb : decrementCallback ws 0 = 0 := by simp [decrementCallback, hneg]
  refine ⟨hcb, ?_, ?_⟩
  · rw [updateLabel_found rfl (listPods_singleton hpods hns hname hsel) hval,
      updateLabelWrite_clean ws st emptyResponse pod 0 (decrementCallback ws) hpods, hcb]
    rfl
  · unfold mutatedLabels
    by_cases hrz : ws.removeOnZero
    · rw [if_pos ⟨rfl, hrz⟩, if_pos hrz, lookupLabel_deleteLabel_self]
    · rw [if_neg (fun h => hrz h.2), if_neg hrz, lookupLabel_setLabel_self]
      rfl

/-- Closed instantiation of `c3_floor`: default configuration, record
`job-1` with counter label `"0"`. -/
theorem c3_floor_witness :
    decrementCallback defaultServer 0 = 0 ∧
    updateLabel defaultServer cleanAttempt ⟨[⟨"default", "job-1", [("active-jobs", "0")], 7⟩]⟩
        emptyResponse "job-1" (decrementCallback defaultServer) =
      (⟨[{ (⟨"default", "job-1", [("active-jobs", "0")], 7⟩ : Pod) with
           labels := mutatedLabels defaultServer [("active-jobs", "0")] 0
           resourceVersion := 7 + 1 }]⟩,
       ⟨some 200, "0"⟩, none) ∧
    lookupLabel (mutatedLabels defaultServer [("active-jobs", "0")] 0) "active-jobs" =
      (if defaultServer.removeOnZero then none else some "0") :=
  c3_floor defaultServer "job-1" ⟨[⟨"default", "job-1", [("active-jobs", "0")], 7⟩]⟩
    ⟨"default", "job-1", [("active-jobs", "0")], 7⟩ rfl rfl rfl rfl rfl rfl

/-- C4: a decrement that produces a new value of exactly `0` (from any
current value `v` the delta function sends to `0`) leaves the written record
without the counter label when remove-on-zero is on, and with the label set
to the string `"0"` when it is off. -/
theorem c4_remove_on_zero (ws : webhookServer) (podName : String) (st : Store) (pod : Pod)
    (v : Int)
    (hpods : st.pods = [pod]) (hns : pod.ns = ws.ns) (hname : pod.name = podName)
    (hsel : selectorMatches ws.labelSelector pod.labels = true)
    (hval : currentLabelValue ws.label pod.labels = some v)
    (hdec : decrementCallback ws v = 0) :
    updateLabel ws cleanAttempt st emptyResponse podName (decrementCallback ws) =
      (⟨[{ pod with
           labels := mutatedLabels ws pod.labels 0
           resourceVersion := pod.resourceVersion + 1 }]⟩,
       ⟨some 200, "0"⟩, none) ∧
    lookupLabel (mutatedLabels ws pod.labels 0) ws.label =
      (if ws.removeOnZero then none else some "0") := by
  refine ⟨?_, ?_⟩
  · rw [updateLabel_found rfl (listPods_singleton hpods hns hname hsel) hval,
      updateLabelWrite_clean ws st emptyResponse pod v (decrementCallback ws) hpods, hdec]
    rfl
  · unfold mutatedLabels
    by_cases hrz : ws.removeOnZero
    · rw [if_pos ⟨rfl, hrz⟩, if_pos hrz, lookupLabel_deleteLabel_self]
    · rw [if_neg (fun h => hrz h.2), if_neg hrz, lookupLabel_setLabel_self]
      rfl

/-- Closed instantiation of `c4_remove_on_zero`: decrementing a record from
counter `1` to `0` under the default (remove-on-zero) configuration and
under the keep-zero configuration. -/
theorem c4_remove_on_zero_witness :
    (updateLabel defaultServer cleanAttempt ⟨[⟨"default", "job-1", [("active-jobs", "1")], 2⟩]⟩
        emptyResponse "job-1" (decrementCallback defaultServer) =
      (⟨[{ (⟨"default", "job-1", [("active-jobs", "1")], 2⟩ : Pod) with
           labels := mutatedLabels defaultServer [("active-jobs", "1")] 0
           resourceVersion := 2 + 1 }]⟩,
       ⟨some 200, "0"⟩, none) ∧
     lookupLabel (mutatedLabels defaultServer [("active-jobs", "1")] 0) "active-jobs" =
       (if defaultServer.removeOnZero then none else some "0")) ∧
    (updateLabel ⟨"default", [], "active-jobs", false, false⟩ cleanAttempt
        ⟨[⟨"default", "job-1", [("active-jobs", "1")], 2⟩]⟩
        emptyResponse "job-1" (decrementCallback ⟨"default", [], "active-jobs", false, false⟩) =
      (⟨[{ (⟨"default", "job-1", [("active-jobs", "1")], 2⟩ : Pod) with
           labels := mutatedLabels ⟨"default", [], "active-jobs", false, false⟩
             [("active-jobs", "1")] 0
           resourceVersion := 2 + 1 }]⟩,
       ⟨some 200, "0"⟩, none) ∧
     lookupLabel (mutatedLabels ⟨"default", [], "active-jobs", false, false⟩
         [("active-jobs", "1")] 0) "active-jobs" =
       (if (⟨"default", [], "active-jobs", false, false⟩ : webhookServer).removeOnZero then none
        else some "0")) :=
  ⟨c4_remove_on_zero defaultServer "job-1" ⟨[⟨"default", "job-1", [("active-jobs", "1")], 2⟩]⟩
      ⟨"default", "job-1", [("active-jobs", "1")], 2⟩ 1 rfl rfl rfl rfl rfl rfl,
   c4_remove_on_zero ⟨"default", [], "active-jobs", false, false⟩ "job-1"
      ⟨[⟨"default", "job-1", [("active-jobs", "1")], 2⟩]⟩
      ⟨"default", "job-1", [("active-jobs", "1")], 2⟩ 1 rfl rfl rfl rfl rfl rfl⟩

/-- C5: a record whose counter label is present but not a valid base-10
integer makes the whole engine run fail on its first attempt with 500
`Invalid ... label value` and the corrupt error class, leaving the store
untouched and never retrying — for every remaining attempt budget and for
every tail of injected store behaviors the result is the same single-attempt
outcome.  This failure class is distinct from an absent label: on a record
without the label the same call raises no parse failure at all but proceeds
to a successful write treating the current value as `0`. -/
theorem c5_corrupt_value (ws : webhookServer) (podName : String) (st stA : Store)
    (pod podA : Pod) (s : String) (cb : Int → Int) (atts : List Attempt) (steps : Nat)
    (hpods : st.pods = [pod]) (hns : pod.ns = ws.ns) (hname : pod.name = podName)
    (hsel : selectorMatches ws.labelSelector pod.labels = true)
    (hlook : lookupLabel pod.labels ws.label = some s) (hatoi : atoi s = none)
    (hclean : (atts.headD cleanAttempt).listErr = none)
    (hpodsA : stA.pods = [podA]) (hnsA : podA.ns = ws.ns) (hnameA : podA.name = podName)
    (hselA : selectorMatches ws.labelSelector podA.labels = true)
    (hlookA : lookupLabel podA.labels ws.label = none) :
    retryOnConflict ws podName cb (steps + 1) atts st emptyResponse =
      (st,
       httpError emptyResponse
         ("Invalid " ++ goQuote ws.label ++ " label value: " ++ goQuote s) 500,
       some (.invalidLabelValue ws.label s)) ∧
    (httpError emptyResponse
        ("Invalid " ++ goQuote ws.label ++ " label value: " ++ goQuote s) 500).status =
      some 500 ∧
    updateLabel ws cleanAttempt stA emptyResponse podName cb =
      (⟨[{ podA with
           labels := mutatedLabels ws podA.labels (cb 0)
           resourceVersion := podA.resourceVersion + 1 }]⟩,
       writeBody emptyResponse (itoa (cb 0)), none) := by
  refine ⟨?_, rfl, ?_⟩
  · exact retryOnConflict_stops
      (updateLabel_corrupt hclean (listPods_singleton hpods hns hname hsel) hlook hatoi) rfl
  · rw [updateLabel_found rfl (listPods_singleton hpodsA hnsA hnameA hselA)
      (currentLabelValue_of_lookup_none hlookA),
      updateLabelWrite_clean ws stA emptyResponse podA 0 cb hpodsA]

/-- Closed instantiation of `c5_corrupt_value`: counter label `"abc"` versus
no counter label, increment, three remaining retry steps. -/
theorem c5_corrupt_value_witness :
    retryOnConflict defaultServer "job-1" incrementCallback (2 + 1) []
        ⟨[⟨"default", "job-1", [("active-jobs", "abc")], 5⟩]⟩ emptyResponse =
      (⟨[⟨"default", "job-1", [("active-jobs", "abc")], 5⟩]⟩,
       httpError emptyResponse
         ("Invalid " ++ goQuote defaultServer.label ++ " label value: " ++ goQuote "abc") 500,
       some (.invalidLabelValue defaultServer.label "abc")) ∧
    (httpError emptyResponse
        ("Invalid " ++ goQuote defaultServer.label ++ " label value: " ++ goQuote "abc")
        500).status = some 500 ∧
    updateLabel defaultServer cleanAttempt ⟨[⟨"default", "job-1", [("app", "batch")], 5⟩]⟩
        emptyResponse "job-1" incrementCallback =
      (⟨[{ (⟨"default", "job-1", [("app", "batch")], 5⟩ : Pod) with
           labels := mutatedLabels defaultServer [("app", "batch")] (incrementCallback 0)
           resourceVersion := 5 + 1 }]⟩,
       writeBody emptyResponse (itoa (incrementCallback 0)), none) :=
  c5_corrupt_value defaultServer "job-1"
    ⟨[⟨"default", "job-1", [("active-jobs", "abc")], 5⟩]⟩
    ⟨[⟨"default", "job-1", [("app", "batch")], 5⟩]⟩
    ⟨"default", "job-1", [("active-jobs", "abc")], 5⟩
    ⟨"default", "job-1", [("app", "batch")], 5⟩
    "abc" incrementCallback [] 2 rfl rfl rfl rfl rfl (by decide) rfl rfl rfl rfl rfl rfl

/-- C6: a request naming a record the List call cannot see — because no
record of that name exists in the namespace, or because the only such record
does not match the configured selector — fails with the same 404
`Pod not found` response and the same not-found error class in both cases,
leaves the store untouched, and is never retried: the result is the
single-attempt outcome for every remaining attempt budget. -/
theorem c6_not_found (ws : webhookServer) (podName : String) (stMissing stSel : Store)
    (q : Pod) (cb : Int → Int) (atts atts' : List Attempt) (steps steps' : Nat)
    (hmiss : ∀ p ∈ stMissing.pods, ¬ (p.ns = ws.ns ∧ p.name = podName))
    (hq : stSel.pods = [q]) (hqns : q.ns = ws.ns) (hqname : q.name = podName)
    (hqsel : selectorMatches ws.labelSelector q.labels = false)
    (hclean : (atts.headD cleanAttempt).listErr = none)
    (hclean' : (atts'.headD cleanAttempt).listErr = none) :
    retryOnConflict ws podName cb (steps + 1) atts stMissing emptyResponse =
      (stMissing, httpError emptyResponse "Pod not found" 404,
       some (.podNotFound podName ws.ns)) ∧
    retryOnConflict ws podName cb (steps' + 1) atts' stSel emptyResponse =
      (stSel, httpError emptyResponse "Pod not found" 404,
       some (.podNotFound podName ws.ns)) ∧
    (httpError emptyResponse "Pod not found" 404).status = some 404 := by
  refine ⟨?_, ?_, rfl⟩
  · exact retryOnConflict_stops
      (updateLabel_notFound hclean (listPods_nil_of_no_match hmiss)) rfl
  · refine retryOnConflict_stops (updateLabel_notFound hclean' ?_) rfl
    refine listPods_nil_of_selector ?_
    intro p hp
    rw [hq] at hp
    simp only [List.mem_singleton] at hp
    subst hp
    intro _ _
    exact hqsel

/-- Closed instantiation of `c6_not_found`: an empty store versus a store
whose only `job-1` record lacks the `team=a` selector label. -/
theorem c6_not_found_witness :
    retryOnConflict ⟨"default", [("team", "a")], "active-jobs", true, false⟩ "job-1"
        incrementCallback (3 + 1) [] ⟨[]⟩ emptyResponse =
      (⟨[]⟩, httpError emptyResponse "Pod not found" 404,
       some (.podNotFound "job-1" "default")) ∧
    retryOnConflict ⟨"default", [("team", "a")], "active-jobs", true, false⟩ "job-1"
        incrementCallback (1 + 1) [] ⟨[⟨"default", "job-1", [("team", "b")], 0⟩]⟩
        emptyResponse =
      (⟨[⟨"default", "job-1", [("team", "b")], 0⟩]⟩,
       httpError emptyResponse "Pod not found" 404,
       some (.podNotFound "job-1" "default")) ∧
    (httpError emptyResponse "Pod not found" 404).status = some 404 :=
  c6_not_found ⟨"default", [("team", "a")], "active-jobs", true, false⟩ "job-1" ⟨[]⟩
    ⟨[⟨"default", "job-1", [("team", "b")], 0⟩]⟩ ⟨"default", "job-1", [("team", "b")], 0⟩
    incrementCallback [] [] 3 1 (by intro p hp; simp at hp) rfl rfl rfl (by decide) rfl rfl

/-- Store of the C7 scenario before any call: record `job-1` with no counter
label. -/
def c7St0 : Store := ⟨[⟨"default", "job-1", [("app", "batch")], 0⟩]⟩

/-- Store after the first increment of the C7 scenario. -/
def c7St1 : Store := ⟨[⟨"default", "job-1", [("app", "batch"), ("active-jobs", "1")], 1⟩]⟩

/-- Store after the second increment of the C7 scenario. -/
def c7St2 : Store := ⟨[⟨"default", "job-1", [("app", "batch"), ("active-jobs", "2")], 2⟩]⟩

/-- Store after the first decrement of the C7 scenario. -/
def c7St3 : Store := ⟨[⟨"default", "job-1", [("app", "batch"), ("active-jobs", "1")], 3⟩]⟩

/-- Store after the second decrement of the C7 scenario: the label is gone. -/
def c7St4 : Store := ⟨[⟨"default", "job-1", [("app", "batch")], 4⟩]⟩

/-- C7: the end-to-end scenario under the default configuration.  Starting
from record `job-1` with no counter label: POST `/increment?pod_name=job-1`
answers 200 with body `1` and sets `active-jobs=1`; a second increment
answers `2`; two successive POST `/decrement` calls answer `1` then `0`, and
the second one removes the label from the record. -/
theorem c7_scenario :
    incrementHandler defaultServer "POST" "job-1" [] c7St0 = (c7St1, ⟨some 200, "1"⟩) ∧
    incrementHandler defaultServer "POST" "job-1" [] c7St1 = (c7St2, ⟨some 200, "2"⟩) ∧
    decrementHandler defaultServer "POST" "job-1" [] c7St2 = (c7St3, ⟨some 200, "1"⟩) ∧
    decrementHandler defaultServer "POST" "job-1" [] c7St3 = (c7St4, ⟨some 200, "0"⟩) ∧
    lookupLabel (⟨"default", "job-1", [("app", "batch"), ("active-jobs", "1")], 1⟩ : Pod).labels
      "active-jobs" = some "1" ∧
    lookupLabel (⟨"default", "job-1", [("app", "batch")], 4⟩ : Pod).labels "active-jobs" =
      none := by
  refine ⟨rfl, rfl, rfl, rfl, rfl, rfl⟩

/-- C8: a fetched record without the counter label is read as current value
`0` — the attempt raises no error and proceeds to write `deltaFn 0` — and
the increment delta function applies no floor and no ceiling check to the
current value: it is the unconditional wrapping successor, equal to `v + 1`
for every 64-bit value whose successor is representable. -/
theorem c8_absent_reads_zero (ws : webhookServer) (podName : String) (st : Store)
    (pod : Pod) (v : Int)
    (hpods : st.pods = [pod]) (hns : pod.ns = ws.ns) (hname : pod.name = podName)
    (hsel : selectorMatches ws.labelSelector pod.labels = true)
    (hlook : lookupLabel pod.labels ws.label = none)
    (hv1 : int64Min ≤ v) (hv2 : v + 1 ≤ int64Max) :
    currentLabelValue ws.label pod.labels = some 0 ∧
    updateLabel ws cleanAttempt st emptyResponse podName incrementCallback =
      (⟨[{ pod with
           labels := mutatedLabels ws pod.labels (incrementCallback 0)
           resourceVersion := pod.resourceVersion + 1 }]⟩,
       writeBody emptyResponse (itoa (incrementCallback 0)), none) ∧
    incrementCallback v = wrap64 (v + 1) ∧
    incrementCallback v = v + 1 := by
  refine ⟨currentLabelValue_of_lookup_none hlook, ?_, rfl, ?_⟩
  · rw [updateLabel_found rfl (listPods_singleton hpods hns hname hsel)
      (currentLabelValue_of_lookup_none hlook),
      updateLabelWrite_clean ws st emptyResponse pod 0 incrementCallback hpods]
  · exact wrap64_eq_self (by unfold int64Min at hv1 ⊢; omega) hv2

/-- Closed instantiation of `c8_absent_reads_zero`: a record with only an
`app` label, and the numeric case `v = 41`. -/
theorem c8_absent_reads_zero_witness :
    currentLabelValue defaultServer.label [("app", "batch")] = some 0 ∧
    updateLabel defaultServer cleanAttempt ⟨[⟨"default", "job-1", [("app", "batch")], 0⟩]⟩
        emptyResponse "job-1" incrementCallback =
      (⟨[{ (⟨"default", "job-1", [("app", "batch")], 0⟩ : Pod) with
           labels := mutatedLabels defaultServer [("app", "batch")] (incrementCallback 0)
           resourceVersion := 0 + 1 }]⟩,
       writeBody emptyResponse (itoa (incrementCallback 0)), none) ∧
    incrementCallback 41 = wrap64 (41 + 1) ∧
    incrementCallback 41 = 41 + 1 :=
  c8_absent_reads_zero defaultServer "job-1" ⟨[⟨"default", "job-1", [("app", "batch")], 0⟩]⟩
    ⟨"default", "job-1", [("app", "batch")], 0⟩ 41 rfl rfl rfl rfl rfl (by decide) (by decide)

/-- Store of the C9 exhausted-budget run: the target record at counter `1`. -/
def c9st : Store := ⟨[⟨"default", "job-1", [("active-jobs", "1")], 0⟩]⟩

/-- C9: in each failing class the engine invocation returns a non-nil error
to its caller in addition to the already-written 500 response — store list
failure (store unreachable), corrupt counter label, and a conflict-retry
budget exhausted by four interfered attempts; in the last case the store
keeps its counter value and the final error is the conflict class, returned
alongside the 500 response body accumulated over the four attempts. -/
theorem c9_error_also_returned (ws : webhookServer) (podName : String) (st stC : Store)
    (pod : Pod) (s msg : String) (cb : Int → Int) (atts attsC : List Attempt)
    (steps stepsC : Nat)
    (hlist : (atts.headD cleanAttempt).listErr = some msg)
    (hpodsC : stC.pods = [pod]) (hnsC : pod.ns = ws.ns) (hnameC : pod.name = podName)
    (hselC : selectorMatches ws.labelSelector pod.labels = true)
    (hlookC : lookupLabel pod.labels ws.label = some s) (hatoiC : atoi s = none)
    (hcleanC : (attsC.headD cleanAttempt).listErr = none) :
    (retryOnConflict ws podName cb (steps + 1) atts st emptyResponse =
       (st, httpError emptyResponse ("Failed to list pods: " ++ msg) 500,
        some (.listFailed msg)) ∧
     (httpError emptyResponse ("Failed to list pods: " ++ msg) 500).status = some 500) ∧
    (retryOnConflict ws podName cb (stepsC + 1) attsC stC emptyResponse =
       (stC,
        httpError emptyResponse
          ("Invalid " ++ goQuote ws.label ++ " label value: " ++ goQuote s) 500,
        some (.invalidLabelValue ws.label s)) ∧
     (httpError emptyResponse
         ("Invalid " ++ goQuote ws.label ++ " label value: " ++ goQuote s) 500).status =
       some 500) ∧
    retryOnConflict defaultServer "job-1" incrementCallback defaultBackoffSteps
        (List.replicate defaultBackoffSteps ⟨none, true, false⟩) c9st emptyResponse =
      (⟨[⟨"default", "job-1", [("active-jobs", "1")], 4⟩]⟩,
       ⟨some 500,
        "Failed to update pod label\nFailed to update pod label\nFailed to update pod label\nFailed to update pod label\n"⟩,
       some .updateConflict) := by
  refine ⟨⟨?_, rfl⟩, ⟨?_, rfl⟩, rfl⟩
  · exact retryOnConflict_stops (updateLabel_listFailed hlist) rfl
  · exact retryOnConflict_stops
      (updateLabel_corrupt hcleanC (listPods_singleton hpodsC hnsC hnameC hselC) hlookC hatoiC)
      rfl

/-- Closed instantiation of `c9_error_also_returned`: a list transport error
versus a `"boom"` counter label. -/
theorem c9_error_also_returned_witness :
    (retryOnConflict defaultServer "job-1" incrementCallback (0 + 1)
        [⟨some "connection refused", false, false⟩] ⟨[]⟩ emptyResponse =
       (⟨[]⟩, httpError emptyResponse ("Failed to list pods: " ++ "connection refused") 500,
        some (.listFailed "connection refused")) ∧
     (httpError emptyResponse ("Failed to list pods: " ++ "connection refused") 500).status =
       some 500) ∧
    (retryOnConflict defaultServer "job-1" incrementCallback (1 + 1) []
        ⟨[⟨"default", "job-1", [("active-jobs", "boom")], 9⟩]⟩ emptyResponse =
       (⟨[⟨"default", "job-1", [("active-jobs", "boom")], 9⟩]⟩,
        httpError emptyResponse
          ("Invalid " ++ goQuote defaultServer.label ++ " label value: " ++ goQuote "boom")
          500,
        some (.invalidLabelValue defaultServer.label "boom")) ∧
     (httpError emptyResponse
         ("Invalid " ++ goQuote defaultServer.label ++ " label value: " ++ goQuote "boom")
         500).status = some 500) ∧
    retryOnConflict defaultServer "job-1" incrementCallback defaultBackoffSteps
        (List.replicate defaultBackoffSteps ⟨none, true, false⟩) c9st emptyResponse =
      (⟨[⟨"default", "job-1", [("active-jobs", "1")], 4⟩]⟩,
       ⟨some 500,
        "Failed to update pod label\nFailed to update pod label\nFailed to update pod label\nFailed to update pod label\n"⟩,
       some .updateConflict) :=
  c9_error_also_returned defaultServer "job-1" ⟨[]⟩
    ⟨[⟨"default", "job-1", [("active-jobs", "boom")], 9⟩]⟩
    ⟨"default", "job-1", [("active-jobs", "boom")], 9⟩ "boom" "connection refused"
    incrementCallback [⟨some "connection refused", false, false⟩] [] 0 1
    rfl rfl rfl rfl rfl rfl (by decide) rfl

/-- C10: the remove-on-zero policy keys on the computed new value, whichever
delta function produced it — with allow-negative and remove-on-zero both on,
an increment of a record at counter `-1` reaches `0` and deletes the label;
symmetrically, with remove-on-zero off, a decrement of a record with no
counter label writes the label as `"0"`, creating a label that was
previously absent. -/
theorem c10_zero_crossing :
    (incrementHandler ⟨"default", [], "active-jobs", true, true⟩ "POST" "job-1" []
        ⟨[⟨"default", "job-1", [("active-jobs", "-1")], 0⟩]⟩ =
      (⟨[⟨"default", "job-1", [], 1⟩]⟩, ⟨some 200, "0"⟩)) ∧
    lookupLabel ([] : Labels) "active-jobs" = none ∧
    (decrementHandler ⟨"default", [], "active-jobs", false, false⟩ "POST" "job-1" []
        ⟨[⟨"default", "job-1", [], 0⟩]⟩ =
      (⟨[⟨"default", "job-1", [("active-jobs", "0")], 1⟩]⟩, ⟨some 200, "0"⟩)) ∧
    lookupLabel [("active-jobs", "0")] "active-jobs" = some "0" :=
  ⟨rfl, rfl, rfl, rfl⟩

end PodTracker
